import Mathlib

/-!
Verification of the query catalog and execution dispatch layer of the
role-scoped dashboard in src/app.py (a Streamlit application over a
relational store and a document store).

The embedding below translates the Python source shallowly:
Python dicts of parameters become association lists, the query-config
dicts become structures whose optional keys are Option fields, raising
an exception becomes returning an Except error, and the call into a
backend or charting primitive becomes the constructed argument record
(the primitives themselves are external collaborators, out of scope).
-/

set_option autoImplicit false

namespace Dashboard

/-- Runtime values flowing through the dashboard: the parameter context
holds ints and strings (src/app.py lines 229-237); tabular results may in
addition hold temporal values produced by datetime reinterpretation and
nulls.  A temporal value records the text it was parsed from. -/
inductive Value where
  | vint : Int → Value
  | vstr : String → Value
  | vdt : String → Value
  | vnull : Value
deriving DecidableEq

/-- Whether a value is temporal (result of datetime reinterpretation). -/
def Value.isTemporal : Value → Bool
  | .vdt _ => true
  | _ => false

/-- Whether a value is a Python string. -/
def Value.isStr : Value → Bool
  | .vstr _ => true
  | _ => false

/-- Python exceptions relevant to this layer: KeyError from a missing
dict key, ValueError from a failed parse. -/
inductive PyError where
  | keyError : String → PyError
  | valueError : String → PyError
deriving DecidableEq

/-- One column of a pandas DataFrame: its name and its values, row by
row. -/
structure Col where
  name : String
  values : List Value
deriving DecidableEq

/-- A column has pandas dtype object when it holds textual data; this
embedding identifies that with the presence of a string value. -/
def Col.isObject (c : Col) : Bool :=
  c.values.any Value.isStr

/-- A pandas DataFrame as an ordered list of named columns (all columns
of a well-formed frame have the same number of rows). -/
structure DataFrame where
  cols : List Col
deriving DecidableEq

/-- Number of rows, read off the first column (0 for a frame with no
columns), as pandas len(df). -/
def DataFrame.nrows (df : DataFrame) : Nat :=
  match df.cols with
  | [] => 0
  | c :: _ => c.values.length

/-- pandas df.empty: true when either axis has length zero. -/
def DataFrame.empty (df : DataFrame) : Bool :=
  df.cols.isEmpty || df.nrows == 0

/-- The ordered column names of a frame. -/
def DataFrame.columnNames (df : DataFrame) : List String :=
  df.cols.map Col.name

/-- Python str.lower on the ASCII role and tag strings this program
uses, mapped characterwise. -/
def lowerStr (s : String) : String :=
  ⟨s.data.map Char.toLower⟩

/-- Python truthiness default in the source expression
tags or ["all"] (src/app.py line 249): None and the empty list are
falsy, so both are replaced by the singleton ["all"]. -/
def pyOrDefault : Option (List String) → List String
  | none => ["all"]
  | some [] => ["all"]
  | some (x :: xs) => x :: xs

/-- The inner predicate ok(tags) of filter_queries_by_role
(src/app.py lines 248-250): lowercase the effective tag list and test
whether it contains "all" or the lowercased role. -/
def roleTagOk (tags : Option (List String)) (role : String) : Bool :=
  let t := (pyOrDefault tags).map lowerStr
  t.contains "all" || t.contains (lowerStr role)

/-- filter_queries_by_role (src/app.py lines 247-251): keep the catalog
entries whose tags pass roleTagOk, preserving dict insertion order.
The Python function is duck-typed over query dicts via q.get("tags");
the embedding passes the tags projection explicitly. -/
def filter_queries_by_role {α : Type} (qdict : List (String × α))
    (role : String) (tagsOf : α → Option (List String)) : List (String × α) :=
  qdict.filter (fun nq => roleTagOk (tagsOf nq.2) role)

/-- One replacement pass of Python str.replace for a non-empty pattern
p :: ps, scanning left to right and replacing each non-overlapping
occurrence.  The Nat argument is fuel, structurally consumed one unit
per character examined; callers supply the input length, which always
suffices since each step drops at least one character.  The zero-fuel
fallback returns the remaining input unchanged and is unreachable from
replaceFrom. -/
def replaceFromAux (p : Char) (ps rep : List Char) :
    Nat → List Char → List Char
  | _, [] => []
  | 0, l => l
  | fuel + 1, c :: cs =>
    if (p :: ps).isPrefixOf (c :: cs) then
      rep ++ replaceFromAux p ps rep fuel (cs.drop ps.length)
    else
      c :: replaceFromAux p ps rep fuel cs

/-- Replacement over a whole character list with adequate fuel. -/
def replaceFrom (p : Char) (ps rep l : List Char) : List Char :=
  replaceFromAux p ps rep l.length l

/-- Python str.replace s.replace(pat, rep) for the non-empty patterns
this program uses (an empty pattern never occurs in the source). -/
def pyReplace (s pat rep : String) : String :=
  match pat.data with
  | [] => s
  | p :: ps => ⟨replaceFrom p ps rep.data s.data⟩

instance {ε α : Type} [DecidableEq ε] [DecidableEq α] :
    DecidableEq (Except ε α) := fun x y =>
  match x, y with
  | .ok a, .ok b =>
    if h : a = b then isTrue (by rw [h])
    else isFalse (fun hh => h (Except.ok.inj hh))
  | .error e, .error f =>
    if h : e = f then isTrue (by rw [h])
    else isFalse (fun hh => h (Except.error.inj hh))
  | .ok _, .error _ => isFalse (fun hh => Except.noConfusion hh)
  | .error _, .ok _ => isFalse (fun hh => Except.noConfusion hh)

/-- qualify (src/app.py lines 15-17): replace every occurrence of the
schema placeholder "{S}." in the statement text with the configured
schema name followed by ".".  The source reads the schema from the
module-level PG_SCHEMA; the embedding passes it explicitly. -/
def qualify (pg_schema : String) (sql : String) : String :=
  pyReplace sql "{S}." (pg_schema ++ ".")

/-- The chart spec dict of a catalog entry: the "type" key and the
column-binding keys, each possibly absent (src/app.py chart literals and
the spec[...] accesses in render_chart). -/
structure ChartSpec where
  typ : Option String
  x : Option String
  y : Option String
  names : Option String
  values : Option String
  rows : Option String
  cols : Option String
  path : Option String
deriving DecidableEq

/-- A Postgres catalog entry dict (src/app.py lines 27-79): the "sql",
"chart", "tags" and "params" keys; "tags" and "params" may be absent. -/
structure Query where
  sql : String
  chart : ChartSpec
  tags : Option (List String)
  params : Option (List String)
deriving DecidableEq

/-- A Mongo catalog entry dict (src/app.py lines 93-130): collection
name, the top-level operator of each aggregation stage (the stage
argument documents are runtime-built data for the out-of-scope
aggregation boundary), the chart spec, and the absent "tags" key kept as
an Option so that q.get("tags") is expressible. -/
structure MongoQuery where
  collection : String
  stageOps : List String
  chart : ChartSpec
  tags : Option (List String)
deriving DecidableEq

/-- The dict comprehension params = \x7bk: PARAMS_CTX[k] for k in wanted\x7d
(src/app.py line 267): walk the wanted names left to right; a name absent
from the context raises KeyError(name), otherwise its value is copied
unchanged. -/
def bindParams (wanted : List String) (ctx : List (String × Value)) :
    Except PyError (List (String × Value)) :=
  match wanted with
  | [] => .ok []
  | k :: rest =>
    match List.lookup k ctx with
    | none => .error (.keyError k)
    | some v =>
      match bindParams rest ctx with
      | .error e => .error e
      | .ok bs => .ok ((k, v) :: bs)

/-- The Postgres run block (src/app.py lines 261-268): compute
sql := qualify(q["sql"]), read wanted := q.get("params", []), build the
bound parameter dict, and hand (sql, params) to the backend primitive
run_pg_query.  An ok result is exactly the argument pair submitted to
the backend; an error means the comprehension raised before run_pg_query
was called, propagating to the panel handler at line 272. -/
def pgRunSubmission (pg_schema : String) (q : Query)
    (ctx : List (String × Value)) :
    Except PyError (String × List (String × Value)) :=
  let sql := qualify pg_schema q.sql
  match bindParams (q.params.getD []) ctx with
  | .error e => .error e
  | .ok bound => .ok (sql, bound)

/-- The Mongo panel selection options (src/app.py line 283): the
selectbox is built from the full document catalog's keys.  The role is
in scope in the page but unused here. -/
def mongoOfferedNames (qdict : List (String × MongoQuery))
    (_role : String) : List String :=
  qdict.map Prod.fst

/-- Whether a string looks like an ISO date, digit-digit-digit-digit,
dash, digit-digit, dash, digit-digit, as in 2024-01-15 optionally
followed by a time part. -/
def looksLikeDate (s : String) : Bool :=
  match s.data with
  | a :: b :: c :: d :: h1 :: m :: n :: h2 :: p :: q :: _ =>
    a.isDigit && b.isDigit && c.isDigit && d.isDigit &&
      h1 == '-' && m.isDigit && n.isDigit && h2 == '-' &&
      p.isDigit && q.isDigit
  | _ => false

/-- Abstraction of the external pandas primitive pd.to_datetime applied
to one value of an object-typed column: a string that parses as a date
becomes temporal, an already temporal value passes through, anything
else raises.  The dispatch logic under verification depends only on the
succeed-or-raise behaviour per column, not on the parse language. -/
def to_datetime_value : Value → Except PyError Value
  | .vstr s => if looksLikeDate s then .ok (.vdt s) else .error (.valueError s)
  | .vdt s => .ok (.vdt s)
  | .vint _ => .error (.valueError "int")
  | .vnull => .error (.valueError "null")

/-- pd.to_datetime over a whole column: succeeds with every value
converted, or raises at the first value that fails. -/
def to_datetime_list : List Value → Except PyError (List Value)
  | [] => .ok []
  | v :: vs =>
    match to_datetime_value v with
    | .error e => .error e
    | .ok w =>
      match to_datetime_list vs with
      | .error e => .error e
      | .ok ws => .ok (w :: ws)

/-- One iteration of the datetime loop in render_chart (src/app.py
lines 185-190): for a column of dtype object, try pd.to_datetime and
keep the converted column on success; the except-pass clause keeps the
column unchanged on failure; other columns are untouched. -/
def applyDatetimeCoercion (c : Col) : Col :=
  if c.isObject then
    match to_datetime_list c.values with
    | .ok vs => ⟨c.name, vs⟩
    | .error _ => c
  else c

/-- The whole datetime loop of render_chart: every column is processed
independently; the loop itself never raises. -/
def coerceDatetimes (df : DataFrame) : DataFrame :=
  ⟨df.cols.map applyDatetimeCoercion⟩

/-- The render instruction handed to the UI and charting boundary: the
argument record of the st.dataframe, st.info or px call that
render_chart makes. -/
inductive RenderInstruction where
  | noData
  | table : DataFrame → RenderInstruction
  | line : DataFrame → String → String → RenderInstruction
  | bar : DataFrame → String → String → RenderInstruction
  | pie : DataFrame → String → String → RenderInstruction
  | heatmap : DataFrame → String → String → String → RenderInstruction
  | treemap : DataFrame → String → String → RenderInstruction
deriving DecidableEq

/-- Python spec[k] on the chart dict: KeyError when the key is absent. -/
def getKey (o : Option String) (k : String) : Except PyError String :=
  match o with
  | some s => .ok s
  | none => .error (.keyError k)

/-- render_chart (src/app.py lines 179-208): an empty frame short
circuits to the no-data message; otherwise the type tag is read with
default "table", the datetime loop runs, and the if-chain dispatches on
the tag, with the final else falling back to a plain table.  The chart
branches read their column names from the spec dict but perform no check
that those columns exist in the frame. -/
def render_chart (df : DataFrame) (spec : ChartSpec) :
    Except PyError RenderInstruction :=
  if df.empty then .ok .noData
  else
    let ctype := spec.typ.getD "table"
    let df2 := coerceDatetimes df
    if ctype == "table" then .ok (.table df2)
    else if ctype == "line" then do
      let x ← getKey spec.x "x"
      let y ← getKey spec.y "y"
      .ok (.line df2 x y)
    else if ctype == "bar" then do
      let x ← getKey spec.x "x"
      let y ← getKey spec.y "y"
      .ok (.bar df2 x y)
    else if ctype == "pie" then do
      let n ← getKey spec.names "names"
      let v ← getKey spec.values "values"
      .ok (.pie df2 n v)
    else if ctype == "heatmap" then do
      let r ← getKey spec.rows "rows"
      let c ← getKey spec.cols "cols"
      let v ← getKey spec.values "values"
      .ok (.heatmap df2 r c v)
    else if ctype == "treemap" then do
      let p ← getKey spec.path "path"
      let v ← getKey spec.values "values"
      .ok (.treemap df2 p v)
    else .ok (.table df2)

/-- The shipped Postgres catalog CONFIG["postgres"]["queries"]
(src/app.py lines 25-81), in dict insertion order.  The fourth entry has
no "params" key. -/
def pgQueries : List (String × Query) :=
  [ ("Doctor: patients under my care (table)",
     ⟨"
                    SELECT p.patient_id, p.name AS patient, p.age, p.room_no
                    FROM {S}.patients p
                    WHERE p.doctor_id = :doctor_id
                      AND p.patient_id <= 100  # 限制在500条数据的患者ID范围内
                    ORDER BY p.name;
                ",
      ⟨some "table", none, none, none, none, none, none, none⟩,
      some ["doctor"], some ["doctor_id"]⟩),
    ("Nurse: today’s tasks (treatments to administer) (table)",
     ⟨"
                    SELECT p.name AS patient, t.treatment_type, t.treatment_time
                    FROM {S}.treatments t
                    JOIN {S}.patients p ON t.patient_id = p.patient_id
                    WHERE t.nurse_id = :nurse_id
                      AND t.treatment_time::date BETWEEN CURRENT_DATE - INTERVAL \x27\x37 days\x27 AND CURRENT_DATE  # 扩大时间范围避免空结果
                    ORDER BY t.treatment_time;
                ",
      ⟨some "table", none, none, none, none, none, none, none⟩,
      some ["nurse"], some ["nurse_id"]⟩),
    ("Pharmacist: medicines to reorder (bar)",
     ⟨"
                    SELECT m.name, m.quantity
                    FROM {S}.medicine_stock m
                    WHERE m.quantity < :reorder_threshold  # 假设实际库存多为10-50，阈值设为15
                    ORDER BY m.quantity ASC;
                ",
      ⟨some "bar", some "name", some "quantity", none, none, none, none, none⟩,
      some ["pharmacist"], some ["reorder_threshold"]⟩),
    ("Mgr: total patients & average age (table)",
     ⟨"
                    SELECT COUNT(*)::int AS total_patients,
                           AVG(age)::numeric(10,1) AS avg_age,
                           MIN(age) AS min_age,  # 新增小数据量下更有意义的统计
                           MAX(age) AS max_age
                    FROM {S}.patients;
                ",
      ⟨some "table", none, none, none, none, none, none, none⟩,
      some ["manager"], none⟩) ]

/-- The shipped Mongo catalog CONFIG["mongo"]["queries"] (src/app.py
lines 91-133), in dict insertion order.  Neither entry dict carries a
"tags" key. -/
def mongoQueries : List (String × MongoQuery) :=
  [ ("TS: Hourly avg heart rate (resident 501, last 24h)",
     ⟨"bracelet_readings_ts",
      ["$match", "$project", "$group", "$sort"],
      ⟨some "line", some "_id", some "avg_hr", none, none, none, none, none⟩,
      none⟩),
    ("Telemetry: Battery status distribution",
     ⟨"bracelet_data",
      ["$project", "$group", "$sort"],
      ⟨some "pie", none, none, some "_id", some "cnt", none, none, none⟩,
      none⟩) ]

/-- PARAMS_CTX (src/app.py lines 229-237): the per-render snapshot of
the named user inputs, integers already coerced by the widgets, the
patient name a string. -/
def PARAMS_CTX (doctor_id nurse_id age_threshold days med_low_threshold
    reorder_threshold : Int) (patient_name : String) :
    List (String × Value) :=
  [ ("doctor_id", .vint doctor_id),
    ("nurse_id", .vint nurse_id),
    ("patient_name", .vstr patient_name),
    ("age_threshold", .vint age_threshold),
    ("days", .vint days),
    ("med_low_threshold", .vint med_low_threshold),
    ("reorder_threshold", .vint reorder_threshold) ]

/-- PARAMS_CTX at the widget default values (src/app.py lines 222-228):
doctor_id 2, nurse_id 3, patient_name "John Doe", age_threshold 75,
days 5, med_low_threshold 3, reorder_threshold 8. -/
def defaultParamsCtx : List (String × Value) :=
  PARAMS_CTX 2 3 75 5 3 8 "John Doe"

/-- The Postgres panel options (src/app.py lines 253-254): the visible
catalog is the role-filtered catalog. -/
def pgOfferedQueries (qdict : List (String × Query)) (role : String) :
    List (String × Query) :=
  filter_queries_by_role qdict role Query.tags

/-- The effective tag list in the specification's words: a descriptor
with a missing or empty tag list is treated as tagged with the single
wildcard "all".  Stated from the spec for comparison with the code's
pyOrDefault. -/
def specEffectiveTags : Option (List String) → List String
  | none => ["all"]
  | some [] => ["all"]
  | some (t :: ts) => t :: ts

/-- The visibility predicate in the specification's words: the wildcard
"all" is among the effective tags, or the role is, both compared
case-insensitively. -/
def specRoleVisible (tags : Option (List String)) (role : String) : Prop :=
  (∃ t ∈ specEffectiveTags tags, lowerStr t = "all") ∨
  (∃ t ∈ specEffectiveTags tags, lowerStr t = lowerStr role)

/-- A demonstration relational descriptor in the shape of the shipped
pharmacist entry, used to instantiate the binding and templating
theorems at concrete inputs. -/
def demoQuery : Query :=
  ⟨"SELECT m.name, m.quantity FROM {S}.medicine_stock m WHERE m.quantity < :reorder_threshold",
   ⟨some "bar", some "name", some "quantity", none, none, none, none, none⟩,
   some ["pharmacist"], some ["reorder_threshold"]⟩

/-- A one-row result frame lacking the "quantity" column, against the
demonstration bar spec. -/
def c4df : DataFrame :=
  ⟨[⟨"name", [.vstr "aspirin"]⟩]⟩

/-- A bar chart spec naming x "name" and y "quantity". -/
def c4spec : ChartSpec :=
  ⟨some "bar", some "name", some "quantity", none, none, none, none, none⟩

/-- A one-entry document catalog whose entry is tagged for doctors
only, exercising the role filter on the document side. -/
def c6Catalog : List (String × MongoQuery) :=
  [("TS doctors only",
    ⟨"bracelet_readings_ts", ["$match"],
     ⟨some "line", some "_id", some "avg_hr", none, none, none, none, none⟩,
     some ["doctor"]⟩)]

/-- A two-column frame: a textual column that parses as a date and one
that does not. -/
def c8df : DataFrame :=
  ⟨[⟨"ts", [.vstr "2024-01-15"]⟩, ⟨"note", [.vstr "hello"]⟩]⟩

theorem specEffectiveTags_eq_pyOrDefault (tags : Option (List String)) :
    specEffectiveTags tags = pyOrDefault tags := by
  cases tags with
  | none => rfl
  | some l => cases l <;> rfl

theorem roleTagOk_iff (tags : Option (List String)) (role : String) :
    roleTagOk tags role = true ↔ specRoleVisible tags role := by
  unfold roleTagOk specRoleVisible
  rw [specEffectiveTags_eq_pyOrDefault]
  simp only [Bool.or_eq_true, List.elem_iff, List.mem_map]

theorem mem_filter_queries_iff (qdict : List (String × Query))
    (role : String) (e : String × Query) :
    e ∈ filter_queries_by_role qdict role Query.tags ↔
      e ∈ qdict ∧ specRoleVisible e.2.tags role := by
  unfold filter_queries_by_role
  rw [List.mem_filter, roleTagOk_iff]

/-- C1: for every role string and relational catalog, the role filter
includes an entry iff "all" or the role is among its effective role
tags, comparing case-insensitively, where a missing or empty tag list
counts as the single tag "all"; and the filtered catalog is an
order-preserving subselection of the input catalog. -/
theorem C1_role_filter_iff_and_order (qdict : List (String × Query))
    (role : String) :
    (∀ e : String × Query,
        e ∈ filter_queries_by_role qdict role Query.tags ↔
          e ∈ qdict ∧ specRoleVisible e.2.tags role) ∧
    (filter_queries_by_role qdict role Query.tags).Sublist qdict :=
  ⟨mem_filter_queries_iff qdict role, List.filter_sublist qdict⟩

/-- C9: for the literal role "all", the role filter keeps exactly the
entries whose effective tags contain "all" case-insensitively; a
descriptor tagged only for doctors is excluded, and the shipped
relational catalog, whose entries each carry one specific role tag,
filters to the empty catalog. -/
theorem C9_role_all_not_wildcard :
    (∀ (qdict : List (String × Query)) (e : String × Query),
        e ∈ filter_queries_by_role qdict "all" Query.tags ↔
          e ∈ qdict ∧ ∃ t ∈ specEffectiveTags e.2.tags, lowerStr t = "all") ∧
    filter_queries_by_role
        [("Doctor only",
          ⟨"SELECT 1", ⟨some "table", none, none, none, none, none, none, none⟩,
           some ["doctor"], none⟩)] "all" Query.tags = [] ∧
    filter_queries_by_role pgQueries "all" Query.tags = [] := by
  refine ⟨?_, by decide, by decide⟩
  intro qdict e
  rw [mem_filter_queries_iff qdict "all" e]
  unfold specRoleVisible
  have hall : lowerStr "all" = "all" := by decide
  rw [hall, or_self]

theorem bindParams_missing (wanted : List String)
    (ctx : List (String × Value))
    (h : ∃ p ∈ wanted, List.lookup p ctx = none) :
    ∃ name ∈ wanted, List.lookup name ctx = none ∧
      bindParams wanted ctx = .error (.keyError name) := by
  induction wanted with
  | nil =>
    rcases h with ⟨p, hp, _⟩
    cases hp
  | cons k rest ih =>
    by_cases hk : List.lookup k ctx = none
    · exact ⟨k, List.mem_cons_self k rest, hk, by simp [bindParams, hk]⟩
    · rcases h with ⟨p, hp, hnone⟩
      have hpr : p ∈ rest := by
        rcases List.mem_cons.mp hp with h1 | h1
        · exact absurd (h1 ▸ hnone) hk
        · exact h1
      rcases ih ⟨p, hpr, hnone⟩ with ⟨name, hn, hnone2, heq⟩
      obtain ⟨v, hv⟩ := Option.ne_none_iff_exists'.mp hk
      exact ⟨name, List.mem_cons_of_mem k hn, hnone2,
        by simp [bindParams, hv, heq]⟩

theorem bindParams_ok (wanted : List String) (ctx : List (String × Value))
    (h : ∀ p ∈ wanted, (List.lookup p ctx).isSome = true) :
    ∃ bound, bindParams wanted ctx = .ok bound ∧
      bound.map Prod.fst = wanted ∧
      ∀ k v, (k, v) ∈ bound → List.lookup k ctx = some v := by
  induction wanted with
  | nil =>
    exact ⟨[], rfl, rfl, fun k v hkv => absurd hkv (List.not_mem_nil _)⟩
  | cons k rest ih =>
    obtain ⟨v, hv⟩ :=
      Option.isSome_iff_exists.mp (h k (List.mem_cons_self k rest))
    obtain ⟨bs, hbs, hmap, hvals⟩ :=
      ih (fun p hp => h p (List.mem_cons_of_mem k hp))
    refine ⟨(k, v) :: bs, by simp [bindParams, hv, hbs], by simp [hmap], ?_⟩
    intro k2 v2 hkv
    rcases List.mem_cons.mp hkv with h1 | h1
    · obtain ⟨rfl, rfl⟩ := Prod.mk.injEq .. ▸ h1
      exact hv
    · exact hvals k2 v2 h1

/-- C2: whenever the parameter context lacks one of a descriptor's
required parameter names, the binding comprehension raises a KeyError
naming a missing required parameter, and the Postgres execution
primitive is never handed any submission for that run. -/
theorem C2_missing_param_no_backend_call (pg_schema : String) (q : Query)
    (ctx : List (String × Value))
    (h : ∃ p ∈ q.params.getD [], List.lookup p ctx = none) :
    ∃ name ∈ q.params.getD [],
      List.lookup name ctx = none ∧
      pgRunSubmission pg_schema q ctx = .error (.keyError name) ∧
      ∀ call, pgRunSubmission pg_schema q ctx ≠ .ok call := by
  rcases bindParams_missing (q.params.getD []) ctx h with ⟨name, hn, hnone, heq⟩
  refine ⟨name, hn, hnone, by simp [pgRunSubmission, heq], ?_⟩
  intro call hcall
  simp [pgRunSubmission, heq] at hcall

/-- C2 witness: the demonstration descriptor requires
reorder_threshold, absent from the empty context. -/
theorem C2_witness :
    (∃ p ∈ demoQuery.params.getD [], List.lookup p ([] : List (String × Value)) = none) ∧
    ∃ name ∈ demoQuery.params.getD [],
      List.lookup name ([] : List (String × Value)) = none ∧
      pgRunSubmission "public" demoQuery [] = .error (.keyError name) ∧
      ∀ call, pgRunSubmission "public" demoQuery [] ≠ .ok call :=
  ⟨⟨"reorder_threshold", by decide, by decide⟩,
   C2_missing_param_no_backend_call "public" demoQuery []
     ⟨"reorder_threshold", by decide, by decide⟩⟩

/-- C3: whenever the context supplies every required parameter name,
binding succeeds, the bound mapping's keys are exactly the required
names in order (so extra context entries never leak through), and every
bound value is the context's value unchanged. -/
theorem C3_binding_exact_keys (pg_schema : String) (q : Query)
    (ctx : List (String × Value))
    (h : ∀ p ∈ q.params.getD [], (List.lookup p ctx).isSome = true) :
    ∃ bound,
      pgRunSubmission pg_schema q ctx = .ok (qualify pg_schema q.sql, bound) ∧
      bound.map Prod.fst = q.params.getD [] ∧
      (∀ k v, (k, v) ∈ bound → List.lookup k ctx = some v) ∧
      (∀ k, k ∈ bound.map Prod.fst ↔ k ∈ q.params.getD []) := by
  obtain ⟨bound, hb, hmap, hvals⟩ := bindParams_ok (q.params.getD []) ctx h
  exact ⟨bound, by simp [pgRunSubmission, hb], hmap, hvals,
    fun k => by rw [hmap]⟩

/-- C3 witness: the demonstration descriptor bound against the default
parameter context, which contains six extra entries. -/
theorem C3_witness :
    (∀ p ∈ demoQuery.params.getD [],
        (List.lookup p defaultParamsCtx).isSome = true) ∧
    ∃ bound,
      pgRunSubmission "public" demoQuery defaultParamsCtx
        = .ok (qualify "public" demoQuery.sql, bound) ∧
      bound.map Prod.fst = demoQuery.params.getD [] ∧
      (∀ k v, (k, v) ∈ bound → List.lookup k defaultParamsCtx = some v) ∧
      (∀ k, k ∈ bound.map Prod.fst ↔ k ∈ demoQuery.params.getD []) :=
  ⟨by decide,
   C3_binding_exact_keys "public" demoQuery defaultParamsCtx (by decide)⟩

theorem pgRunSubmission_sql (pg_schema : String) (q : Query)
    (ctx : List (String × Value)) (sql : String)
    (bound : List (String × Value))
    (h : pgRunSubmission pg_schema q ctx = .ok (sql, bound)) :
    sql = qualify pg_schema q.sql := by
  unfold pgRunSubmission at h
  cases hbp : bindParams (q.params.getD []) ctx with
  | error e => rw [hbp] at h; cases h
  | ok bs =>
    rw [hbp] at h
    exact (Prod.mk.injEq .. ▸ Except.ok.inj h).1.symm

/-- C7: every statement submitted to the Postgres backend is the
descriptor's template with each occurrence of the placeholder token
followed by a dot replaced by the configured schema name and a dot; and
the submitted text does not depend on the bound parameter values, which
travel separately in the submission pair. -/
theorem C7_schema_templating_param_free (pg_schema : String) (q : Query)
    (ctx : List (String × Value)) (sql : String)
    (bound : List (String × Value))
    (h : pgRunSubmission pg_schema q ctx = .ok (sql, bound)) :
    sql = pyReplace q.sql "{S}." (pg_schema ++ ".") ∧
    ∀ ctx2 sql2 bound2,
      pgRunSubmission pg_schema q ctx2 = .ok (sql2, bound2) → sql2 = sql := by
  constructor
  · exact pgRunSubmission_sql pg_schema q ctx sql bound h
  · intro ctx2 sql2 bound2 h2
    rw [pgRunSubmission_sql pg_schema q ctx2 sql2 bound2 h2,
      pgRunSubmission_sql pg_schema q ctx sql bound h]

/-- C7 witness: the demonstration descriptor at schema "public",
submitted with the default context. -/
theorem C7_witness :
    (pgRunSubmission "public" demoQuery defaultParamsCtx
      = .ok ("SELECT m.name, m.quantity FROM public.medicine_stock m WHERE m.quantity < :reorder_threshold",
             [("reorder_threshold", Value.vint 8)])) ∧
    ("SELECT m.name, m.quantity FROM public.medicine_stock m WHERE m.quantity < :reorder_threshold"
        = pyReplace demoQuery.sql "{S}." ("public" ++ ".") ∧
     ∀ ctx2 sql2 bound2,
        pgRunSubmission "public" demoQuery ctx2 = .ok (sql2, bound2) →
        sql2 = "SELECT m.name, m.quantity FROM public.medicine_stock m WHERE m.quantity < :reorder_threshold") :=
  ⟨by decide,
   C7_schema_templating_param_free "public" demoQuery defaultParamsCtx
     "SELECT m.name, m.quantity FROM public.medicine_stock m WHERE m.quantity < :reorder_threshold"
     [("reorder_threshold", Value.vint 8)] (by decide)⟩

theorem to_datetime_value_ok_temporal (v w : Value)
    (h : to_datetime_value v = .ok w) : w.isTemporal = true := by
  cases v with
  | vstr s =>
    by_cases hd : looksLikeDate s
    · simp only [to_datetime_value, if_pos hd] at h
      obtain rfl := Except.ok.inj h
      rfl
    · simp [to_datetime_value, hd] at h
  | vdt s =>
    obtain rfl := Except.ok.inj h
    rfl
  | vint n => simp [to_datetime_value] at h
  | vnull => simp [to_datetime_value] at h

theorem to_datetime_list_ok (vs ws : List Value)
    (h : to_datetime_list vs = .ok ws) :
    ws.all Value.isTemporal = true ∧ ws.length = vs.length := by
  induction vs generalizing ws with
  | nil =>
    obtain rfl := Except.ok.inj h
    exact ⟨rfl, rfl⟩
  | cons v rest ih =>
    simp only [to_datetime_list] at h
    cases hv : to_datetime_value v with
    | error e => rw [hv] at h; cases h
    | ok w =>
      rw [hv] at h
      cases hr : to_datetime_list rest with
      | error e => rw [hr] at h; cases h
      | ok ws2 =>
        rw [hr] at h
        obtain rfl := Except.ok.inj h
        obtain ⟨h1, h2⟩ := ih ws2 hr
        exact ⟨by simp [List.all_cons, to_datetime_value_ok_temporal v w hv, h1],
          by simp [h2]⟩

theorem applyDatetimeCoercion_name (c : Col) :
    (applyDatetimeCoercion c).name = c.name := by
  by_cases hobj : c.isObject
  · cases h : to_datetime_list c.values with
    | ok vs => simp [applyDatetimeCoercion, hobj, h]
    | error e => simp [applyDatetimeCoercion, hobj, h]
  · simp [applyDatetimeCoercion, hobj]

theorem applyDatetimeCoercion_length (c : Col) :
    (applyDatetimeCoercion c).values.length = c.values.length := by
  by_cases hobj : c.isObject
  · cases h : to_datetime_list c.values with
    | ok vs =>
      simp [applyDatetimeCoercion, hobj, h, (to_datetime_list_ok c.values vs h).2]
    | error e => simp [applyDatetimeCoercion, hobj, h]
  · simp [applyDatetimeCoercion, hobj]

/-- C4 counterexample: a non-empty one-row result without a "quantity"
column, under a bar spec naming x "name" and y "quantity".  Dispatch
does not raise any error before the render attempt: it hands the
charting boundary a bar call that names the absent column.  The source
has no ChartSpecError and no column-existence check; the failure arises
inside the external charting call and is caught by the generic panel
handler (src/app.py line 272), in the same message format as backend
errors. -/
theorem C4_counterexample :
    c4df.empty = false ∧
    c4spec.typ = some "bar" ∧ c4spec.x = some "name" ∧
    c4spec.y = some "quantity" ∧
    "quantity" ∉ c4df.columnNames ∧
    render_chart c4df c4spec = .ok (.bar c4df "name" "quantity") := by
  decide

/-- C4 amended: for a non-empty result and a Line or Bar spec naming
its x and y columns, dispatch performs no column-existence check: it
returns the corresponding chart call on the datetime-coerced frame with
the named columns whether or not those columns exist in the result. -/
theorem C4_amended_dispatch_without_column_check (df : DataFrame)
    (spec : ChartSpec) (x y : String) (hne : df.empty = false)
    (hx : spec.x = some x) (hy : spec.y = some y) :
    (spec.typ = some "line" →
      render_chart df spec = .ok (.line (coerceDatetimes df) x y)) ∧
    (spec.typ = some "bar" →
      render_chart df spec = .ok (.bar (coerceDatetimes df) x y)) := by
  constructor <;> intro ht <;>
    simp [render_chart, hne, ht, hx, hy, getKey, bind, Except.bind]

/-- C4 witness: the amended dispatch theorem at the counterexample
frame, whose "quantity" column is absent. -/
theorem C4_witness :
    (c4df.empty = false ∧ "quantity" ∉ c4df.columnNames) ∧
    render_chart c4df c4spec = .ok (.bar (coerceDatetimes c4df) "name" "quantity") :=
  ⟨by decide,
   (C4_amended_dispatch_without_column_check c4df c4spec "name" "quantity"
     (by decide) rfl rfl).2 rfl⟩

/-- C5: rendering an empty tabular result produces the no-data
instruction for every chart spec, and in particular never a charting
call. -/
theorem C5_empty_result_no_data (df : DataFrame) (spec : ChartSpec)
    (h : df.empty = true) :
    render_chart df spec = .ok .noData := by
  simp [render_chart, h]

/-- C5 witness: the empty frame under a treemap spec. -/
theorem C5_witness :
    ((⟨[]⟩ : DataFrame).empty = true) ∧
    render_chart ⟨[]⟩
      ⟨some "treemap", none, none, none, some "qty", none, none, some "cat"⟩
      = .ok .noData :=
  ⟨by decide,
   C5_empty_result_no_data ⟨[]⟩
     ⟨some "treemap", none, none, none, some "qty", none, none, some "cat"⟩
     (by decide)⟩

/-- C6 counterexample: a document catalog entry tagged only for
doctors is still offered to role "nurse" by the Mongo panel, while the
role filter excludes it; the offered set is not the filtered set, so
role filtering is not applied to the document catalog before
selection. -/
theorem C6_counterexample :
    mongoOfferedNames c6Catalog "nurse" = ["TS doctors only"] ∧
    (filter_queries_by_role c6Catalog "nurse" MongoQuery.tags).map Prod.fst = [] ∧
    mongoOfferedNames c6Catalog "nurse"
      ≠ (filter_queries_by_role c6Catalog "nurse" MongoQuery.tags).map Prod.fst := by
  decide

/-- C6 amended: the Mongo panel offers the full document catalog for
every role, with no role filter applied; for the shipped document
catalog, whose entries carry no role tags and are therefore visible to
every role under the filter, the offered set happens to coincide with
the role-filtered set for every role. -/
theorem C6_amended_mongo_panel_unfiltered (role : String) :
    mongoOfferedNames mongoQueries role = mongoQueries.map Prod.fst ∧
    filter_queries_by_role mongoQueries role MongoQuery.tags = mongoQueries ∧
    mongoOfferedNames mongoQueries role
      = (filter_queries_by_role mongoQueries role MongoQuery.tags).map Prod.fst := by
  have h1 : roleTagOk none role = true := by
    have hl : (pyOrDefault none).map lowerStr = ["all"] := by decide
    simp [roleTagOk, hl]
  have h2 : filter_queries_by_role mongoQueries role MongoQuery.tags
      = mongoQueries := by
    simp [filter_queries_by_role, mongoQueries, h1]
  exact ⟨rfl, h2, by rw [h2]; rfl⟩

/-- C8: the datetime reinterpretation step before dispatch is total and
per-column: in the coerced frame, a non-object column is unchanged, an
object column whose values fail to parse is unchanged, and an object
column whose values all parse is replaced by the parsed column of the
same name, every value temporal and no row lost; no column contents can
make the step itself fail. -/
theorem C8_datetime_coercion_best_effort (df : DataFrame) :
    (coerceDatetimes df).cols.length = df.cols.length ∧
    ∀ (i : Nat) (c : Col), df.cols[i]? = some c →
      (c.isObject = false → (coerceDatetimes df).cols[i]? = some c) ∧
      (∀ e, to_datetime_list c.values = .error e →
        (coerceDatetimes df).cols[i]? = some c) ∧
      (∀ vs, to_datetime_list c.values = .ok vs → c.isObject = true →
        (coerceDatetimes df).cols[i]? = some ⟨c.name, vs⟩ ∧
        vs.all Value.isTemporal = true ∧ vs.length = c.values.length) := by
  constructor
  · simp [coerceDatetimes]
  · intro i c hc
    have hmap : (coerceDatetimes df).cols[i]? = some (applyDatetimeCoercion c) := by
      simp [coerceDatetimes, List.getElem?_map, hc]
    refine ⟨?_, ?_, ?_⟩
    · intro hobj
      rw [hmap]
      simp [applyDatetimeCoercion, hobj]
    · intro e he
      rw [hmap]
      by_cases hobj : c.isObject
      · simp [applyDatetimeCoercion, hobj, he]
      · simp [applyDatetimeCoercion, hobj]
    · intro vs hvs hobj
      obtain ⟨h1, h2⟩ := to_datetime_list_ok c.values vs hvs
      rw [hmap]
      refine ⟨?_, h1, h2⟩
      simp [applyDatetimeCoercion, hobj, hvs]

/-- C8 witness: a frame with a parsing text column and a non-parsing
text column; the first becomes temporal, the second is left as text. -/
theorem C8_witness :
    (c8df.cols[0]? = some ⟨"ts", [.vstr "2024-01-15"]⟩ ∧
     c8df.cols[1]? = some ⟨"note", [.vstr "hello"]⟩) ∧
    (coerceDatetimes c8df).cols[0]? = some ⟨"ts", [.vdt "2024-01-15"]⟩ ∧
    (coerceDatetimes c8df).cols[1]? = some ⟨"note", [.vstr "hello"]⟩ :=
  ⟨⟨by decide, by decide⟩,
   (((C8_datetime_coercion_best_effort c8df).2 0
       ⟨"ts", [.vstr "2024-01-15"]⟩ (by decide)).2.2
     [.vdt "2024-01-15"] (by decide) (by decide)).1,
   ((C8_datetime_coercion_best_effort c8df).2 1
       ⟨"note", [.vstr "hello"]⟩ (by decide)).2.1
     (.valueError "hello") (by decide)⟩

/-- C10: a non-empty result with a chart type tag that is missing or
outside the recognized six falls through to the final else and is
rendered as a table of the datetime-coerced frame, with every column
name and the row count preserved, and no error raised. -/
theorem C10_unrecognized_type_table_fallback (df : DataFrame)
    (spec : ChartSpec) (hne : df.empty = false)
    (ht : spec.typ = none ∨
      spec.typ.getD "table"
        ∉ (["table", "line", "bar", "pie", "heatmap", "treemap"] : List String)) :
    render_chart df spec = .ok (.table (coerceDatetimes df)) ∧
    (coerceDatetimes df).columnNames = df.columnNames ∧
    (coerceDatetimes df).nrows = df.nrows := by
  refine ⟨?_, ?_, ?_⟩
  · rcases ht with h | h
    · simp [render_chart, hne, h]
    · have t1 : (spec.typ.getD "table" == "table") = false := by
        rw [beq_eq_false_iff_ne]
        intro hh
        exact h (by rw [hh]; simp)
      have t2 : (spec.typ.getD "table" == "line") = false := by
        rw [beq_eq_false_iff_ne]
        intro hh
        exact h (by rw [hh]; simp)
      have t3 : (spec.typ.getD "table" == "bar") = false := by
        rw [beq_eq_false_iff_ne]
        intro hh
        exact h (by rw [hh]; simp)
      have t4 : (spec.typ.getD "table" == "pie") = false := by
        rw [beq_eq_false_iff_ne]
        intro hh
        exact h (by rw [hh]; simp)
      have t5 : (spec.typ.getD "table" == "heatmap") = false := by
        rw [beq_eq_false_iff_ne]
        intro hh
        exact h (by rw [hh]; simp)
      have t6 : (spec.typ.getD "table" == "treemap") = false := by
        rw [beq_eq_false_iff_ne]
        intro hh
        exact h (by rw [hh]; simp)
      simp [render_chart, hne, t1, t2, t3, t4, t5, t6]
  · simp only [DataFrame.columnNames, coerceDatetimes, List.map_map]
    exact List.map_congr_left (fun c _ => applyDatetimeCoercion_name c)
  · cases hdf : df.cols with
    | nil => simp [DataFrame.nrows, coerceDatetimes, hdf]
    | cons c cs =>
      simp [DataFrame.nrows, coerceDatetimes, hdf, applyDatetimeCoercion_length]

/-- C10 witness: a one-row frame with the unrecognized type tag
"scatter". -/
theorem C10_witness :
    ((⟨[⟨"a", [.vint 1]⟩]⟩ : DataFrame).empty = false) ∧
    render_chart ⟨[⟨"a", [.vint 1]⟩]⟩
        ⟨some "scatter", none, none, none, none, none, none, none⟩
      = .ok (.table (coerceDatetimes ⟨[⟨"a", [.vint 1]⟩]⟩)) ∧
    (coerceDatetimes ⟨[⟨"a", [.vint 1]⟩]⟩).columnNames
      = (⟨[⟨"a", [.vint 1]⟩]⟩ : DataFrame).columnNames ∧
    (coerceDatetimes ⟨[⟨"a", [.vint 1]⟩]⟩).nrows
      = (⟨[⟨"a", [.vint 1]⟩]⟩ : DataFrame).nrows :=
  ⟨by decide,
   C10_unrecognized_type_table_fallback ⟨[⟨"a", [.vint 1]⟩]⟩
     ⟨some "scatter", none, none, none, none, none, none, none⟩
     (by decide) (Or.inr (by decide))⟩

end Dashboard
